import Mathlib

/-
  Formal model of the Zeus5.0 "Método Gorila 4.0" signal engine.

  Shallow embedding of the setup detectors, multi-timeframe bias,
  candlestick pattern flags and risk management found in
  src/backend/gorila_strategies.py, src/backend/risk_management.py and
  src/backend/main.py.

  Conventions of the embedding:
  * prices are exact rationals (ℚ);
  * a pandas column that can hold NaN (rolling means, diffs) is a
    `List (Option ℚ)`, with `none` standing for NaN; comparisons against
    NaN are false, which the `oLT` / `oLE` helpers reproduce;
  * a DataFrame is the `Frame` structure: OHLCV data plus optional
    derived indicator columns (absent column = `none`), so that in-place
    column assignment is observable as a change of the `Frame` value;
  * detectors are state-passing: they return their result together with
    the frame as the caller sees it after the call (the Python code
    mutates the frame it receives);
  * `datetime.now()`-derived flags (golden week, weekend) are explicit
    boolean parameters;
  * Python `round(x, n)` (round-half-to-even) is `roundTo n`;
  * result dictionaries are structures; the human-readable Portuguese
    message strings are modelled as enumerated tags.
-/

set_option maxRecDepth 8000

/- Batteries marks the arithmetic of `Rat` `@[irreducible]`, which blocks
`decide` on concrete rational computations; restoring the default
reducibility only changes unfolding hints, not any definition. -/
set_option allowUnsafeReducibility true in
attribute [semireducible] Rat.add Rat.mul Rat.inv Rat.sub Rat.neg

/-! ### Generic column helpers -/

/-- Worker for the pandas exponential moving average with `adjust=True`
(the default of `Series.ewm`): carries the running weighted numerator and
denominator, `num_t = (1-α)num_(t-1) + x_t`, `den_t = (1-α)den_(t-1) + 1`,
emitting `num_t / den_t`. -/
def emaAdjGo (a num den : ℚ) : List ℚ → List ℚ
  | [] => []
  | x :: xs =>
    let n := (1 - a) * num + x
    let d := (1 - a) * den + 1
    n / d :: emaAdjGo a n d xs

/-- `Series.ewm(span=s).mean()` with smoothing `a = 2/(s+1)`. -/
def emaAdj (a : ℚ) (xs : List ℚ) : List ℚ := emaAdjGo a 0 0 xs

/-- `Series.diff()` on a NaN-free column: first entry NaN. -/
def diffO (xs : List ℚ) : List (Option ℚ) :=
  none :: List.zipWith (fun p c => some (c - p)) xs xs.tail

/-- `Series.diff()` on a column that may already contain NaN. -/
def diffOO (xs : List (Option ℚ)) : List (Option ℚ) :=
  none :: List.zipWith
    (fun p c =>
      match p, c with
      | some p, some c => some (c - p)
      | _, _ => none) xs xs.tail

/-- `Series.rolling(window=w).mean()`: NaN until the window fills. -/
def rollingMean (w : ℕ) (xs : List ℚ) : List (Option ℚ) :=
  (List.range xs.length).map fun i =>
    if w ≤ i + 1 then some ((((xs.take (i + 1)).drop (i + 1 - w)).sum) / w) else none

/-- `Series.cumsum()`. -/
def cumsum (xs : List ℚ) : List ℚ := (xs.scanl (· + ·) 0).tail

/-- Strict `<` with pandas NaN semantics: any comparison against NaN is false. -/
def oLT : Option ℚ → Option ℚ → Bool
  | some a, some b => a < b
  | _, _ => false

/-- `≤` with pandas NaN semantics. -/
def oLE : Option ℚ → Option ℚ → Bool
  | some a, some b => a ≤ b
  | _, _ => false

/-- Positional read of a price column (all reads in the source are in range;
the default is never hit on the traces we reason about). -/
def gq (xs : List ℚ) (i : ℕ) : ℚ := xs.getD i 0

/-- Positional read of a NaN-able column. -/
def go (xs : List (Option ℚ)) (i : ℕ) : Option ℚ := xs.getD i none

/-- Python `round(x, d)`: round half to even at `d` decimal places. -/
def roundTo (d : ℕ) (x : ℚ) : ℚ :=
  let m : ℚ := (10 : ℚ) ^ d
  let y := x * m
  let f : ℤ := ⌊y⌋
  let r := y - (f : ℚ)
  (if r < 1 / 2 then (f : ℚ)
   else if 1 / 2 < r then (f : ℚ) + 1
   else if f % 2 = 0 then (f : ℚ) else (f : ℚ) + 1) / m

/-! ### The data frame -/

/-- A pandas DataFrame as the detectors see it: OHLCV columns plus the
derived indicator columns they may write (absent column = `none`).
`opn` is the `open` column (`open` is a Lean keyword). -/
structure Frame where
  opn : List ℚ := []
  high : List ℚ := []
  low : List ℚ := []
  close : List ℚ := []
  volume : Option (List ℚ) := none
  mme9 : Option (List ℚ) := none
  mme9_slope : Option (List (Option ℚ)) := none
  mma3 : Option (List (Option ℚ)) := none
  mma21 : Option (List (Option ℚ)) := none
  mma21_slope : Option (List (Option ℚ)) := none
  mma50 : Option (List (Option ℚ)) := none
  mma50_slope : Option (List (Option ℚ)) := none
  mma200 : Option (List (Option ℚ)) := none
  mme400 : Option (List ℚ) := none
  vwap : Option (List (Option ℚ)) := none
  deriving DecidableEq

/-- `len(data)`: the row count. -/
def flen (f : Frame) : ℕ := f.close.length

/-- `data['close'].ewm(span=9).mean()`. -/
def mme9col (close : List ℚ) : List ℚ := emaAdj (1 / 5) close

/-- `data['close'].rolling(window=21).mean()`. -/
def mma21col (close : List ℚ) : List (Option ℚ) := rollingMean 21 close

/-- `data['close'].rolling(window=50).mean()`. -/
def mma50col (close : List ℚ) : List (Option ℚ) := rollingMean 50 close

/-! ### Setup detector results -/

inductive SignalKind
  | setup91Compra
  | setup91Venda
  | setup92
  | pontoContinuo
  | agulhadaCompra
  | agulhadaVenda
  deriving DecidableEq

inductive SetupName
  | s91compra
  | s91venda
  | s92
  | pontoContinuo
  | agulhada
  deriving DecidableEq

/-- One accumulated match ("signal" dict of a detector): type tag, entry,
stop, index of the triggering bar and the stored risk fraction. -/
structure TradeMatch where
  kind : SignalKind
  entry_price : ℚ
  stop_loss : ℚ
  bar_index : ℕ
  risk_pct : ℚ
  deriving DecidableEq

/-- Detector outcome: `noSignal true` is "Dados insuficientes",
`noSignal false` is "Condições não atendidas", `found` carries the setup
name, the reported match (`signals[-1]`) and the base confidence. -/
inductive DetectorResult
  | noSignal (insufficientData : Bool)
  | found (setup : SetupName) (details : TradeMatch) (confidence : ℕ)
  deriving DecidableEq

/-- The accumulation loop shared by the four structural detectors:
`signals = []; for i in idxs: if cond i: signals.append(mk i)`. -/
def scanAcc (cond : ℕ → Bool) (mk : ℕ → TradeMatch) (idxs : List ℕ) : List TradeMatch :=
  idxs.foldl (fun acc i => if cond i then acc ++ [mk i] else acc) []

/-! ### Setup 9.1 compra (gorila_strategies.py lines 25-77) -/

/-- The candidate built at bar `i`: entry one pip above the high of the
turning candle, stop at its low, risk fraction `|entry-stop|/entry`. -/
def mk91compra (f : Frame) (i : ℕ) : TradeMatch :=
  let e := gq f.high i + 1 / 10000
  let s := gq f.low i
  ⟨.setup91Compra, e, s, i, |e - s| / e⟩

/-- Trigger-and-risk condition of setup 9.1 compra at bar `i`: the MME9
slope flips from negative to positive and the risk fraction is ≤ 2%. -/
def q91compra (f : Frame) (i : ℕ) : Bool :=
  let slope := diffO (mme9col f.close)
  oLT (go slope (i - 1)) (some 0) && oLT (some 0) (go slope i) &&
    decide ((mk91compra f i).risk_pct ≤ 2 / 100)

def setup_91_compra (f : Frame) : DetectorResult × Frame :=
  if flen f < 10 then (.noSignal true, f)
  else
    let m := mme9col f.close
    let f2 := { f with mme9 := some m, mme9_slope := some (diffO m) }
    let sigs := scanAcc (q91compra f) (mk91compra f) (List.range' 2 (flen f - 2))
    (match sigs.getLast? with
     | some m => .found .s91compra m 75
     | none => .noSignal false, f2)

/-! ### Setup 9.1 venda (lines 79-131) -/

def mk91venda (f : Frame) (i : ℕ) : TradeMatch :=
  let e := gq f.low i - 1 / 10000
  let s := gq f.high i
  ⟨.setup91Venda, e, s, i, |e - s| / e⟩

def q91venda (f : Frame) (i : ℕ) : Bool :=
  let slope := diffO (mme9col f.close)
  oLT (some 0) (go slope (i - 1)) && oLT (go slope i) (some 0) &&
    decide ((mk91venda f i).risk_pct ≤ 2 / 100)

def setup_91_venda (f : Frame) : DetectorResult × Frame :=
  if flen f < 10 then (.noSignal true, f)
  else
    let m := mme9col f.close
    let f2 := { f with mme9 := some m, mme9_slope := some (diffO m) }
    let sigs := scanAcc (q91venda f) (mk91venda f) (List.range' 2 (flen f - 2))
    (match sigs.getLast? with
     | some m => .found .s91venda m 75
     | none => .noSignal false, f2)

/-! ### Setup 9.2 (lines 133-185) -/

def mk92 (f : Frame) (i : ℕ) : TradeMatch :=
  let e := gq f.high i + 1 / 10000
  let s := gq f.low i
  ⟨.setup92, e, s, i, |e - s| / e⟩

/-- MME9 slope positive at `i`, current close below the previous low, and
risk ≤ 2%. -/
def q92 (f : Frame) (i : ℕ) : Bool :=
  let slope := diffO (mme9col f.close)
  oLT (some 0) (go slope i) && decide (gq f.close i < gq f.low (i - 1)) &&
    decide ((mk92 f i).risk_pct ≤ 2 / 100)

def setup_92 (f : Frame) : DetectorResult × Frame :=
  if flen f < 10 then (.noSignal true, f)
  else
    let m := mme9col f.close
    let f2 := { f with mme9 := some m, mme9_slope := some (diffO m) }
    let sigs := scanAcc (q92 f) (mk92 f) (List.range' 2 (flen f - 2))
    (match sigs.getLast? with
     | some m => .found .s92 m 70
     | none => .noSignal false, f2)

/-! ### Setup ponto contínuo (lines 187-246) -/

/-- Entry one pip above the high, stop `0.0002` below MMA21(i) (the MMA21
value is `some` whenever the guarding slope test passed). -/
def mkPC (f : Frame) (i : ℕ) : TradeMatch :=
  let e := gq f.high i + 1 / 10000
  let s := (go (mma21col f.close) i).getD 0 - 2 / 10000
  ⟨.pontoContinuo, e, s, i, |e - s| / e⟩

/-- MMA21 ascending at `i`, the low within 0.1% of MMA21, close above MMA21
on each of the five preceding bars, risk ≤ 2%. The distance test is false
when MMA21(i) is NaN, like the NaN-poisoned float comparison. -/
def qPC (f : Frame) (i : ℕ) : Bool :=
  let m := mma21col f.close
  let slope := diffOO m
  oLT (some 0) (go slope i) &&
    (match go m i with
     | some v => decide (|gq f.low i - v| / gq f.close i ≤ 1 / 1000)
     | none => false) &&
    ((List.range' (i - 5) (i - (i - 5))).all fun j => oLT (go m j) (some (gq f.close j))) &&
    decide ((mkPC f i).risk_pct ≤ 2 / 100)

def setup_ponto_continuo (f : Frame) : DetectorResult × Frame :=
  if flen f < 25 then (.noSignal true, f)
  else
    let m := mma21col f.close
    let f2 := { f with mma21 := some m, mma21_slope := some (diffOO m) }
    let sigs := scanAcc (qPC f) (mkPC f) (List.range' 21 (flen f - 21))
    (match sigs.getLast? with
     | some m => .found .pontoContinuo m 80
     | none => .noSignal false, f2)

/-! ### Setup agulhada (lines 248-345)

The Python loop keeps `signal_type`, `entry_price`, `stop_loss` in the
function's local scope and guards the append with
`if 'signal_type' in locals():`, so once one bar has set them they leak
into every later iteration whose alignment and needle tests pass but whose
slope test fails. The fold below carries that residual state as an
`Option (SignalKind × ℚ × ℚ)`. -/

def agEntryBull (f : Frame) (i : ℕ) : ℚ := gq f.high i + 1 / 10000

def agStopBull (f : Frame) (i : ℕ) : ℚ :=
  min (gq (mme9col f.close) i) ((go (mma21col f.close) i).getD 0) - 2 / 10000

def agEntryBear (f : Frame) (i : ℕ) : ℚ := gq f.low i - 1 / 10000

def agStopBear (f : Frame) (i : ℕ) : ℚ :=
  max (gq (mme9col f.close) i) ((go (mma21col f.close) i).getD 0) + 2 / 10000

/-- `mme9 > mma21 > mma50` at bar `i` (false on NaN). -/
def agAlignBull (f : Frame) (i : ℕ) : Bool :=
  oLT (go (mma21col f.close) i) (some (gq (mme9col f.close) i)) &&
    oLT (go (mma50col f.close) i) (go (mma21col f.close) i)

/-- `mme9 < mma21 < mma50` at bar `i` (false on NaN). -/
def agAlignBear (f : Frame) (i : ℕ) : Bool :=
  oLT (some (gq (mme9col f.close) i)) (go (mma21col f.close) i) &&
    oLT (go (mma21col f.close) i) (go (mma50col f.close) i)

/-- All three averages pass inside the candle: `low ≤ ma ≤ high`. -/
def agInCandle (f : Frame) (i : ℕ) : Bool :=
  decide (gq f.low i ≤ gq (mme9col f.close) i) &&
    decide (gq (mme9col f.close) i ≤ gq f.high i) &&
    oLE (some (gq f.low i)) (go (mma21col f.close) i) &&
    oLE (go (mma21col f.close) i) (some (gq f.high i)) &&
    oLE (some (gq f.low i)) (go (mma50col f.close) i) &&
    oLE (go (mma50col f.close) i) (some (gq f.high i))

/-- Bull slope test: MME9 and MMA21 slopes strictly positive, MMA50 slope
non-negative. -/
def agSlopesBull (f : Frame) (i : ℕ) : Bool :=
  oLT (some 0) (go (diffO (mme9col f.close)) i) &&
    oLT (some 0) (go (diffOO (mma21col f.close)) i) &&
    oLE (some 0) (go (diffOO (mma50col f.close)) i)

/-- Bear slope test: MME9 and MMA21 slopes strictly negative, MMA50 slope
non-positive. -/
def agSlopesBear (f : Frame) (i : ℕ) : Bool :=
  oLT (go (diffO (mme9col f.close)) i) (some 0) &&
    oLT (go (diffOO (mma21col f.close)) i) (some 0) &&
    oLE (go (diffOO (mma50col f.close)) i) (some 0)

/-- One iteration of the agulhada scan. The second component of the state
is the `signal_type`/`entry_price`/`stop_loss` residue in `locals()`. -/
def agStep (f : Frame) (st : List TradeMatch × Option (SignalKind × ℚ × ℚ)) (i : ℕ) :
    List TradeMatch × Option (SignalKind × ℚ × ℚ) :=
  let (sigs, stale) := st
  if agAlignBull f i || agAlignBear f i then
    if agInCandle f i then
      let st2 :=
        if agAlignBull f i then
          if agSlopesBull f i then some (.agulhadaCompra, agEntryBull f i, agStopBull f i)
          else stale
        else
          if agSlopesBear f i then some (.agulhadaVenda, agEntryBear f i, agStopBear f i)
          else stale
      match st2 with
      | some (k, e, s) =>
        let r := |e - s| / e
        if r ≤ 25 / 1000 then (sigs ++ [⟨k, e, s, i, r⟩], st2) else (sigs, st2)
      | none => (sigs, st2)
    else (sigs, stale)
  else (sigs, stale)

def setup_agulhada (f : Frame) : DetectorResult × Frame :=
  if flen f < 55 then (.noSignal true, f)
  else
    let m9 := mme9col f.close
    let m21 := mma21col f.close
    let m50 := mma50col f.close
    let f2 := { f with
      mme9 := some m9, mma21 := some m21, mma50 := some m50,
      mme9_slope := some (diffO m9), mma21_slope := some (diffOO m21),
      mma50_slope := some (diffOO m50) }
    let sigs := ((List.range' 50 (flen f - 50)).foldl (agStep f) ([], none)).1
    (match sigs.getLast? with
     | some m =>
       .found .agulhada m (if m.kind = .agulhadaCompra then 85 else 80)
     | none => .noSignal false, f2)

/-- The genuine (non-stale) trigger-and-risk condition of the agulhada at
bar `i`: alignment, the three averages inside the candle, the slope test of
the matching direction, and the risk of the entry/stop built *at this bar*
within 2.5%. -/
def agQualifies (f : Frame) (i : ℕ) : Bool :=
  (agAlignBull f i && agInCandle f i && agSlopesBull f i &&
    decide (|agEntryBull f i - agStopBull f i| / agEntryBull f i ≤ 25 / 1000)) ||
  (agAlignBear f i && agInCandle f i && agSlopesBear f i &&
    decide (|agEntryBear f i - agStopBear f i| / agEntryBear f i ≤ 25 / 1000))

/-- The fresh bull match the agulhada would report for a genuine bull
occurrence at bar `i`. -/
def agFreshBullMatch (f : Frame) (i : ℕ) : TradeMatch :=
  ⟨.agulhadaCompra, agEntryBull f i, agStopBull f i, i,
    |agEntryBull f i - agStopBull f i| / agEntryBull f i⟩

/-! ### RiskManager.calculate_position_size (risk_management.py lines 23-79)

`is_golden_week` defaults to `datetime.now().day <= 7` in the source; it is
an explicit parameter here. `max_position_risk = 0.01`, so the clamp is
`min(risk_percentage, 1.0)` — and it runs *after* the golden-week halving. -/

/-- The risk percentage actually used: halved on golden week, then clamped
to the 1% per-position cap (times 100). -/
def rmRawRiskPct (risk_percentage : ℚ) (is_golden_week : Bool) : ℚ :=
  min (if is_golden_week then risk_percentage * (1 / 2) else risk_percentage) 1

/-- `risk_amount = account_balance * (risk_percentage / 100)` before rounding. -/
def rmRawRiskAmount (account_balance risk_percentage : ℚ) (is_golden_week : Bool) : ℚ :=
  account_balance * (rmRawRiskPct risk_percentage is_golden_week / 100)

/-- `position_size = risk_amount / price_risk` before rounding. -/
def rmRawPositionSize (account_balance entry_price stop_loss risk_percentage : ℚ)
    (is_golden_week : Bool) : ℚ :=
  rmRawRiskAmount account_balance risk_percentage is_golden_week / |entry_price - stop_loss|

/-- The result dictionary. On the `price_risk <= 0` error path the source
returns a dictionary with only an error message, `position_size = 0` and
`risk_amount = 0`; here `error = true` and the remaining fields are
defaulted to the inputs / zero. -/
structure RMPositionSize where
  error : Bool
  position_size : ℚ
  risk_amount : ℚ
  risk_percentage : ℚ
  price_risk : ℚ
  is_golden_week : Bool
  max_loss : ℚ
  account_balance : ℚ
  entry_price : ℚ
  stop_loss : ℚ
  deriving DecidableEq

def RM_calculate_position_size (account_balance entry_price stop_loss risk_percentage : ℚ)
    (is_golden_week : Bool) : RMPositionSize :=
  let rp := rmRawRiskPct risk_percentage is_golden_week
  let price_risk := |entry_price - stop_loss|
  if price_risk ≤ 0 then
    ⟨true, 0, 0, rp, price_risk, is_golden_week, 0, account_balance, entry_price, stop_loss⟩
  else
    ⟨false,
      roundTo 2 (rmRawPositionSize account_balance entry_price stop_loss risk_percentage is_golden_week),
      roundTo 2 (rmRawRiskAmount account_balance risk_percentage is_golden_week),
      rp, roundTo 5 price_risk, is_golden_week,
      roundTo 2 (rmRawRiskAmount account_balance risk_percentage is_golden_week),
      account_balance, entry_price, stop_loss⟩

/-! ### GorilaStrategies.calculate_position_size (gorila_strategies.py lines 751-785)

Here the halving multiplies `position_size` and `risk_amount` directly
(no clamp); `is_golden_week = datetime.now().day <= 7` is again an
explicit parameter. -/

/-- `risk_amount`, halved on golden week, before rounding. -/
def gsRawRiskAmount (account_balance risk_pct : ℚ) (is_golden_week : Bool) : ℚ :=
  let ra := account_balance * (risk_pct / 100)
  if is_golden_week then ra * (1 / 2) else ra

/-- `position_size`, halved on golden week, before rounding. -/
def gsRawPositionSize (account_balance risk_pct entry_price stop_loss : ℚ)
    (is_golden_week : Bool) : ℚ :=
  let ps := account_balance * (risk_pct / 100) / |entry_price - stop_loss|
  if is_golden_week then ps * (1 / 2) else ps

structure GSPositionSize where
  error : Bool
  position_size : ℚ
  risk_amount : ℚ
  risk_percentage : ℚ
  price_risk : ℚ
  is_golden_week : Bool
  max_loss : ℚ
  deriving DecidableEq

def GS_calculate_position_size (account_balance risk_pct entry_price stop_loss : ℚ)
    (is_golden_week : Bool) : GSPositionSize :=
  let price_risk := |entry_price - stop_loss|
  if price_risk = 0 then
    ⟨true, 0, 0, risk_pct, price_risk, is_golden_week, 0⟩
  else
    ⟨false,
      roundTo 2 (gsRawPositionSize account_balance risk_pct entry_price stop_loss is_golden_week),
      roundTo 2 (gsRawRiskAmount account_balance risk_pct is_golden_week),
      risk_pct, roundTo 5 price_risk, is_golden_week,
      roundTo 2 (gsRawRiskAmount account_balance risk_pct is_golden_week)⟩

/-! ### RiskManager.validate_trade_setup (risk_management.py lines 129-177)

The message strings of the warning/error lists are modelled as tags.
`min_risk_reward = 2.0` is fixed in `__init__`; `_is_weekend()` is the
explicit `is_weekend` parameter. -/

inductive RMWarning
  | lowConfidence
  | weekendClosed
  deriving DecidableEq

inductive RMError
  | rrBelowMinimum
  | invalidRisk
  deriving DecidableEq

structure TradeValidation where
  valid : Bool
  warnings : List RMWarning
  errors : List RMError
  risk_reward_ratio : ℚ
  confidence_check : Bool
  deriving DecidableEq

def validate_trade_setup (entry_price stop_loss take_profit confidence min_confidence : ℚ)
    (is_weekend : Bool) : TradeValidation :=
  let risk := |entry_price - stop_loss|
  let reward := |take_profit - entry_price|
  let core : Bool × List RMError × ℚ :=
    if 0 < risk then
      let rr := reward / risk
      if rr < 2 then (false, [.rrBelowMinimum], roundTo 2 rr)
      else (true, [], roundTo 2 rr)
    else (false, [.invalidRisk], 0)
  let confidence_check := decide (min_confidence ≤ confidence)
  let warnings :=
    (if min_confidence ≤ confidence then ([] : List RMWarning) else [.lowConfidence]) ++
      (if is_weekend then [RMWarning.weekendClosed] else [])
  ⟨core.1, warnings, core.2.1, core.2.2, confidence_check⟩

/-! ### Multi-timeframe bias (gorila_strategies.py lines 646-691) -/

inductive Trend
  | ALTA
  | BAIXA
  | NEUTRO
  | INDEFINIDA
  deriving DecidableEq

/-- One per-timeframe analysis as `_determine_overall_bias` reads it: only
`trend` and `trend_strength` matter for the bias. -/
structure TFAnalysis where
  trend : Trend
  trend_strength : ℚ
  deriving DecidableEq

/-- The `analysis["timeframes"]` dictionary: one optional entry per
configured timeframe (weekly, daily, hourly, 15-minute). -/
structure TimeframeMap where
  wk1 : Option TFAnalysis
  d1 : Option TFAnalysis
  h1 : Option TFAnalysis
  m15 : Option TFAnalysis
  deriving DecidableEq

/-- Contribution of one timeframe slot to the score of trend `t`: the
hierarchy weight scaled by `trend_strength / 100`, when the trend matches. -/
def contribTrendScore (t : Trend) (o : Option TFAnalysis) (w : ℚ) : ℚ :=
  match o with
  | none => 0
  | some a => if a.trend = t then w * (a.trend_strength / 100) else 0

/-- Contribution of one slot to `total_weight`: the unscaled weight when the
timeframe is present. -/
def contribWeight (o : Option TFAnalysis) (w : ℚ) : ℚ :=
  match o with
  | none => 0
  | some _ => w

def altaScore (tm : TimeframeMap) : ℚ :=
  contribTrendScore .ALTA tm.wk1 40 + contribTrendScore .ALTA tm.d1 30 +
    contribTrendScore .ALTA tm.h1 20 + contribTrendScore .ALTA tm.m15 10

def baixaScore (tm : TimeframeMap) : ℚ :=
  contribTrendScore .BAIXA tm.wk1 40 + contribTrendScore .BAIXA tm.d1 30 +
    contribTrendScore .BAIXA tm.h1 20 + contribTrendScore .BAIXA tm.m15 10

def totalWeight (tm : TimeframeMap) : ℚ :=
  contribWeight tm.wk1 40 + contribWeight tm.d1 30 +
    contribWeight tm.h1 20 + contribWeight tm.m15 10

/-- `_determine_overall_bias`. -/
def determine_overall_bias (tm : TimeframeMap) : Trend :=
  if tm.wk1.isNone && tm.d1.isNone && tm.h1.isNone && tm.m15.isNone then .NEUTRO
  else if totalWeight tm = 0 then .NEUTRO
  else
    let alta_pct := altaScore tm / totalWeight tm
    let baixa_pct := baixaScore tm / totalWeight tm
    if 3 / 5 < alta_pct then .ALTA
    else if 3 / 5 < baixa_pct then .BAIXA
    else .NEUTRO

/-- Per-slot strength sanity (the pipeline only produces strengths in
[0, 100], see `_calculate_trend_strength`). -/
def strengthOKb (o : Option TFAnalysis) : Bool :=
  match o with
  | none => true
  | some a => decide (0 ≤ a.trend_strength) && decide (a.trend_strength ≤ 100)

/-! ### Swing-structure vote of `_identify_trend_advanced`
(gorila_strategies.py lines 452-470), operating on the 20-bar window
`recent = data.tail(20)`. -/

/-- Local-extremum test with ONE neighbour on each side — the comparison
the code performs (`recent.iloc[i]['high'] > recent.iloc[i-1]['high'] and
recent.iloc[i]['high'] > recent.iloc[i+1]['high']`). -/
def localHigh1 (highs : List ℚ) (i : ℕ) : Bool :=
  decide (gq highs (i - 1) < gq highs i) && decide (gq highs (i + 1) < gq highs i)

def localLow1 (lows : List ℚ) (i : ℕ) : Bool :=
  decide (gq lows i < gq lows (i - 1)) && decide (gq lows i < gq lows (i + 1))

/-- The accumulation loop `for i in range(2, len(recent)-2)`: a bar is kept
as a local high when its high strictly exceeds the highs of its *immediate*
neighbours (one on each side), mirrored for lows. -/
def swingAccum (highs lows : List ℚ) : List ℚ × List ℚ :=
  (List.range' 2 (highs.length - 4)).foldl
    (fun acc i =>
      let hs := if localHigh1 highs i then acc.1 ++ [gq highs i] else acc.1
      let ls := if localLow1 lows i then acc.2 ++ [gq lows i] else acc.2
      (hs, ls))
    ([], [])

/-- The last two elements of an accumulated list, as
`(second-to-last, last)`. -/
def lastTwo (xs : List ℚ) : Option (ℚ × ℚ) :=
  match xs.reverse with
  | a :: b :: _ => some (b, a)
  | _ => none

/-- The vote: up when both the last two local highs and the last two local
lows are rising, down when both are falling, else neutral (also neutral
with fewer than two highs or two lows). -/
def structureTrendOf (hs ls : List ℚ) : Trend :=
  match lastTwo hs, lastTwo ls with
  | some (h2, h1), some (l2, l1) =>
    if h2 < h1 ∧ l2 < l1 then .ALTA
    else if h1 < h2 ∧ l1 < l2 then .BAIXA
    else .NEUTRO
  | _, _ => .NEUTRO

/-- The swing-structure vote exactly as coded. -/
def structure_trend (highs lows : List ℚ) : Trend :=
  let acc := swingAccum highs lows
  structureTrendOf acc.1 acc.2

/-- Declarative rendering of the amended claim: collect, over bars
`2 … len-3` of the window, the highs (lows) strictly exceeding (below)
their immediate neighbour on each side, then vote on the last two. -/
def structure_trend_spec1 (highs lows : List ℚ) : Trend :=
  structureTrendOf
    (((List.range' 2 (highs.length - 4)).filter (localHigh1 highs)).map (gq highs))
    (((List.range' 2 (highs.length - 4)).filter (localLow1 lows)).map (gq lows))

/-- Local-extremum predicate with TWO neighbours on each side — what the
claim (and `_find_support_resistance`) demands. -/
def localHigh2 (highs : List ℚ) (i : ℕ) : Bool :=
  decide (gq highs (i - 2) < gq highs i) && decide (gq highs (i - 1) < gq highs i) &&
    decide (gq highs (i + 1) < gq highs i) && decide (gq highs (i + 2) < gq highs i)

def localLow2 (lows : List ℚ) (i : ℕ) : Bool :=
  decide (gq lows i < gq lows (i - 2)) && decide (gq lows i < gq lows (i - 1)) &&
    decide (gq lows i < gq lows (i + 1)) && decide (gq lows i < gq lows (i + 2))

/-- The claim as stated: the same vote, but extrema must strictly dominate
two neighbours on each side. -/
def structure_trend_spec2 (highs lows : List ℚ) : Trend :=
  structureTrendOf
    (((List.range' 2 (highs.length - 4)).filter (localHigh2 highs)).map (gq highs))
    (((List.range' 2 (highs.length - 4)).filter (localLow2 lows)).map (gq lows))

/-! ### Engulfing patterns (main.py lines 207-245) -/

/-- `_detect_bullish_engulfing` pair condition: previous candle bearish,
current bullish, current open below previous close and current close above
previous open. -/
def bullEngulfPair (prevOpen prevClose currOpen currClose : ℚ) : Bool :=
  decide (prevClose < prevOpen) && decide (currOpen < currClose) &&
    decide (currOpen < prevClose) && decide (prevOpen < currClose)

/-- `_detect_bearish_engulfing` pair condition, mirrored. -/
def bearEngulfPair (prevOpen prevClose currOpen currClose : ℚ) : Bool :=
  decide (prevOpen < prevClose) && decide (currClose < currOpen) &&
    decide (prevClose < currOpen) && decide (currClose < prevOpen)

/-- The 0/1 flag column: zeros everywhere, then the loop sets index
`i ≥ 1` from the pair condition on bars `i-1`, `i`. -/
def detect_bullish_engulfing (f : Frame) : List ℕ :=
  if flen f < 2 then List.replicate (flen f) 0
  else
    0 :: (List.range' 1 (flen f - 1)).map fun i =>
      if bullEngulfPair (gq f.opn (i - 1)) (gq f.close (i - 1)) (gq f.opn i) (gq f.close i)
        then 1 else 0

def detect_bearish_engulfing (f : Frame) : List ℕ :=
  if flen f < 2 then List.replicate (flen f) 0
  else
    0 :: (List.range' 1 (flen f - 1)).map fun i =>
      if bearEngulfPair (gq f.opn (i - 1)) (gq f.close (i - 1)) (gq f.opn i) (gq f.close i)
        then 1 else 0

/-! ### calculate_moving_averages (main.py lines 129-150)

The VWAP branch is byte-identical in
`GorilaStrategies._calculate_all_indicators` (gorila_strategies.py lines
414-418): cumulative price×volume over cumulative volume when a volume
column exists, otherwise the close column. A cumulative volume of zero is
a float division 0/0 = NaN in pandas, rendered `none` here. -/

def vwapWithVolume (close vol : List ℚ) : List (Option ℚ) :=
  List.zipWith (fun n d => if d = 0 then none else some (n / d))
    (cumsum (List.zipWith (· * ·) close vol)) (cumsum vol)

def calculate_moving_averages (f : Frame) : Frame :=
  if flen f = 0 then f
  else
    { f with
      mme9 := some (mme9col f.close)
      mme400 := some (emaAdj (2 / 401) f.close)
      mma3 := some (rollingMean 3 f.close)
      mma21 := some (mma21col f.close)
      mma50 := some (mma50col f.close)
      mma200 := some (rollingMean 200 f.close)
      vwap := some (match f.volume with
        | some vol => vwapWithVolume f.close vol
        | none => f.close.map some) }

/-! ### Concrete test series

Prices are quoted in units of `1/10000` (one pip): `uql ns` turns the
integer pip counts into rationals. -/

def uql (ns : List ℤ) : List ℚ := ns.map fun n => (n : ℚ) / 10000

/-- A 12-bar decline-then-rise series on which setup 9.1 compra fires at
bar 8 (the MME9 slope flips there) and nowhere later. -/
def seriesA : Frame :=
  { close := uql [10200, 10150, 10100, 10050, 10000, 9950, 9900, 9950, 10050, 10150, 10250, 10350]
    high := uql [10220, 10170, 10120, 10070, 10020, 9970, 9920, 9970, 10070, 10170, 10270, 10370]
    low := uql [10180, 10130, 10080, 10030, 9980, 9930, 9880, 9930, 10030, 10130, 10230, 10330] }

/-- The mirrored 12-bar rise-then-decline series: setup 9.1 venda fires at
bar 8. -/
def seriesB : Frame :=
  { close := uql [9800, 9850, 9900, 9950, 10000, 10050, 10100, 10050, 9950, 9850, 9750, 9650]
    high := uql [9820, 9870, 9920, 9970, 10020, 10070, 10120, 10070, 9970, 9870, 9770, 9670]
    low := uql [9780, 9830, 9880, 9930, 9980, 10030, 10080, 10030, 9930, 9830, 9730, 9630] }

/-- An 11-bar steady rise whose final close gaps below the previous low
while the MME9 slope stays positive: setup 9.2 fires at bar 10. -/
def seriesC : Frame :=
  { close := uql [10000, 10040, 10080, 10120, 10160, 10200, 10240, 10280, 10320, 10360, 10300]
    high := uql [10020, 10060, 10100, 10140, 10180, 10220, 10260, 10300, 10340, 10380, 10310]
    low := uql [9980, 10020, 10060, 10100, 10140, 10180, 10220, 10260, 10300, 10340, 10290] }

/-- A 26-bar linear uptrend whose final low touches MMA21 exactly: the
ponto contínuo fires at bar 25. -/
def seriesD : Frame :=
  { close := uql [10000, 10005, 10010, 10015, 10020, 10025, 10030, 10035, 10040, 10045, 10050,
      10055, 10060, 10065, 10070, 10075, 10080, 10085, 10090, 10095, 10100, 10105, 10110,
      10115, 10120, 10125]
    high := uql [10020, 10025, 10030, 10035, 10040, 10045, 10050, 10055, 10060, 10065, 10070,
      10075, 10080, 10085, 10090, 10095, 10100, 10105, 10110, 10115, 10120, 10125, 10130,
      10135, 10140, 10145]
    low := uql [9980, 9985, 9990, 9995, 10000, 10005, 10010, 10015, 10020, 10025, 10030, 10035,
      10040, 10045, 10050, 10055, 10060, 10065, 10070, 10075, 10080, 10085, 10090, 10095,
      10100, 10075] }

/-- A 55-bar uptrend for the agulhada. Bars 52 and 53 are wide candles that
genuinely qualify (bull alignment, all three averages inside the candle,
slopes positive, risk ok). Bar 54 closes down, so its MME9 slope is
negative — yet bull alignment and the needle still hold there, so the
source's `if 'signal_type' in locals():` appends a *stale* copy of bar 53's
entry/stop under index 54, and that stale match is the reported result. -/
def agSeries : Frame :=
  { close := uql [9800, 9804, 9808, 9812, 9816, 9820, 9824, 9828, 9832, 9836, 9840, 9844, 9848,
      9852, 9856, 9860, 9864, 9868, 9872, 9876, 9880, 9884, 9888, 9892, 9896, 9900, 9904, 9908,
      9912, 9916, 9920, 9924, 9928, 9932, 9936, 9940, 9944, 9948, 9952, 9956, 9960, 9964, 9968,
      9972, 9976, 9980, 9984, 9988, 9992, 9996, 10000, 10004, 10008, 10012, 9990]
    high := uql [9810, 9814, 9818, 9822, 9826, 9830, 9834, 9838, 9842, 9846, 9850, 9854, 9858,
      9862, 9866, 9870, 9874, 9878, 9882, 9886, 9890, 9894, 9898, 9902, 9906, 9910, 9914, 9918,
      9922, 9926, 9930, 9934, 9938, 9942, 9946, 9950, 9954, 9958, 9962, 9966, 9970, 9974, 9978,
      9982, 9986, 9990, 9994, 9998, 10002, 10006, 10010, 10014, 10018, 10022, 10000]
    low := uql [9790, 9794, 9798, 9802, 9806, 9810, 9814, 9818, 9822, 9826, 9830, 9834, 9838,
      9842, 9846, 9850, 9854, 9858, 9862, 9866, 9870, 9874, 9878, 9882, 9886, 9890, 9894, 9898,
      9902, 9906, 9910, 9914, 9918, 9922, 9926, 9930, 9934, 9938, 9942, 9946, 9950, 9954, 9958,
      9962, 9966, 9970, 9974, 9978, 9982, 9986, 9990, 9994, 9905, 9909, 9910] }

/-- The stale match the agulhada reports on `agSeries`: bar 53's entry and
stop, filed under bar index 54. -/
def agSeriesStale : TradeMatch :=
  ⟨.agulhadaCompra, agEntryBull agSeries 53, agStopBull agSeries 53, 54,
    |agEntryBull agSeries 53 - agStopBull agSeries 53| / agEntryBull agSeries 53⟩

/-- A two-bar frame exhibiting a bullish engulfing at bar 1: bar 0 bearish
(open 1.0100, close 1.0000), bar 1 bullish (open 0.9995, close 1.0200). -/
def seriesE : Frame :=
  { opn := uql [10100, 9995]
    high := uql [10120, 10210]
    low := uql [9980, 9990]
    close := uql [10000, 10200] }

/-- Three bars carrying a volume column that is identically zero. -/
def seriesVolZero : Frame :=
  { close := uql [10000, 10100, 10200]
    high := uql [10020, 10120, 10220]
    low := uql [9980, 10080, 10180]
    opn := uql [10000, 10100, 10200]
    volume := some [0, 0, 0] }

/-- The same three bars with no volume column at all. -/
def seriesNoVol : Frame :=
  { close := uql [10000, 10100, 10200]
    high := uql [10020, 10120, 10220]
    low := uql [9980, 10080, 10180]
    opn := uql [10000, 10100, 10200] }

/-- 20-bar window of highs on which the coded swing vote (one neighbour per
side) disagrees with the two-neighbour reading of the claim. -/
def windowH : List ℚ :=
  uql [106, 108, 102, 108, 108, 109, 100, 109, 103, 101, 100, 100, 102, 105, 101, 106, 107,
    108, 100, 100]

def windowL : List ℚ :=
  uql [103, 105, 99, 107, 106, 107, 99, 107, 102, 98, 97, 97, 101, 102, 98, 105, 104, 105,
    98, 98]

/-- A weekly-only timeframe map: weekly trend ALTA with full strength. -/
def tmWeekly : TimeframeMap := ⟨some ⟨.ALTA, 100⟩, none, none, none⟩

/-! ## Theorems -/

/-! ### Generic facts about the accumulation loops -/

theorem scanAcc_eq_filterMap (cond : ℕ → Bool) (mk : ℕ → TradeMatch) (l : List ℕ) :
    scanAcc cond mk l = l.filterMap fun i => if cond i then some (mk i) else none := by
  have key : ∀ (l : List ℕ) (acc : List TradeMatch),
      l.foldl (fun acc i => if cond i then acc ++ [mk i] else acc) acc =
        acc ++ l.filterMap fun i => if cond i then some (mk i) else none := by
    intro l
    induction l with
    | nil => intro acc; simp
    | cons a t ih =>
      intro acc
      by_cases h : cond a
      · simp [List.foldl_cons, h, ih, List.filterMap_cons]
      · simp [List.foldl_cons, h, ih, List.filterMap_cons]
  simpa [scanAcc] using key l []

theorem mem_scanAcc {cond : ℕ → Bool} {mk : ℕ → TradeMatch} {l : List ℕ} {m : TradeMatch}
    (h : m ∈ scanAcc cond mk l) : ∃ i ∈ l, cond i = true ∧ m = mk i := by
  rw [scanAcc_eq_filterMap] at h
  rcases List.mem_filterMap.mp h with ⟨i, hil, hopt⟩
  by_cases hc : cond i
  · refine ⟨i, hil, hc, ?_⟩
    simp only [hc, if_true, Option.some.injEq] at hopt
    exact hopt.symm
  · simp [hc] at hopt

theorem getLast?_condFilterMap_max (cond : ℕ → Bool) (mk : ℕ → TradeMatch) :
    ∀ l : List ℕ, l.Pairwise (· < ·) → ∀ i ∈ l, cond i = true →
      (∀ j ∈ l, i < j → cond j = false) →
      (l.filterMap fun j => if cond j then some (mk j) else none).getLast? = some (mk i) := by
  intro l
  induction l with
  | nil => intro _ i hi; cases hi
  | cons a t ih =>
    intro hp i hi hc hmax
    rcases List.mem_cons.mp hi with rfl | hit
    · have ht : (t.filterMap fun j => if cond j then some (mk j) else none) = [] := by
        apply List.filterMap_eq_nil_iff.mpr
        intro j hj
        have hij : i < j := (List.pairwise_cons.mp hp).1 j hj
        simp [hmax j (List.mem_cons_of_mem _ hj) hij]
      simp [List.filterMap_cons, hc, ht]
    · have ihres := ih (List.pairwise_cons.mp hp).2 i hit hc
        (fun j hj hij => hmax j (List.mem_cons_of_mem _ hj) hij)
      rw [List.filterMap_cons]
      by_cases ha : cond a
      · simp only [ha, if_true]
        rcases hft : (t.filterMap fun j => if cond j then some (mk j) else none) with _ | ⟨b, r⟩
        · rw [hft] at ihres; cases ihres
        · rw [hft] at ihres
          rw [List.getLast?_cons_cons]
          exact ihres
      · simp only [ha, if_false]
        exact ihres

theorem getLast?_scanAcc_max {cond : ℕ → Bool} {mk : ℕ → TradeMatch} {l : List ℕ} {i : ℕ}
    (hp : l.Pairwise (· < ·)) (hi : i ∈ l) (hc : cond i = true)
    (hmax : ∀ j ∈ l, i < j → cond j = false) :
    (scanAcc cond mk l).getLast? = some (mk i) := by
  rw [scanAcc_eq_filterMap]
  exact getLast?_condFilterMap_max cond mk l hp i hi hc hmax

/-! ### The risk guard of each accumulated match -/

theorem q91compra_risk {f : Frame} {i : ℕ} (h : q91compra f i = true) :
    (mk91compra f i).risk_pct ≤ 2 / 100 := by
  simp only [q91compra, Bool.and_eq_true, decide_eq_true_eq] at h
  exact h.2

theorem q91venda_risk {f : Frame} {i : ℕ} (h : q91venda f i = true) :
    (mk91venda f i).risk_pct ≤ 2 / 100 := by
  simp only [q91venda, Bool.and_eq_true, decide_eq_true_eq] at h
  exact h.2

theorem q92_risk {f : Frame} {i : ℕ} (h : q92 f i = true) :
    (mk92 f i).risk_pct ≤ 2 / 100 := by
  simp only [q92, Bool.and_eq_true, decide_eq_true_eq] at h
  exact h.2

theorem qPC_risk {f : Frame} {i : ℕ} (h : qPC f i = true) :
    (mkPC f i).risk_pct ≤ 2 / 100 := by
  simp only [qPC, Bool.and_eq_true, decide_eq_true_eq] at h
  exact h.2

/-! ### Agulhada scan invariant: every appended match passed the 2.5% guard -/

theorem agStep_mem {f : Frame} {sigs : List TradeMatch} {stale : Option (SignalKind × ℚ × ℚ)}
    {i : ℕ} {m : TradeMatch} (hm : m ∈ (agStep f (sigs, stale) i).1) :
    m ∈ sigs ∨
      (m.risk_pct = |m.entry_price - m.stop_loss| / m.entry_price ∧ m.risk_pct ≤ 25 / 1000) := by
  unfold agStep at hm
  dsimp only at hm
  split at hm
  · split at hm
    · split at hm
      · split at hm
        · rcases List.mem_append.mp hm with h | h
          · exact Or.inl h
          · rcases List.mem_singleton.mp h with rfl
            exact Or.inr ⟨rfl, by assumption⟩
        · exact Or.inl hm
      · exact Or.inl hm
    · exact Or.inl hm
  · exact Or.inl hm

theorem agScan_mem_risk (f : Frame) :
    ∀ (l : List ℕ) (sigs : List TradeMatch) (stale : Option (SignalKind × ℚ × ℚ)),
      (∀ m ∈ sigs, m.risk_pct = |m.entry_price - m.stop_loss| / m.entry_price ∧
        m.risk_pct ≤ 25 / 1000) →
      ∀ m ∈ (l.foldl (agStep f) (sigs, stale)).1,
        m.risk_pct = |m.entry_price - m.stop_loss| / m.entry_price ∧ m.risk_pct ≤ 25 / 1000 := by
  intro l
  induction l with
  | nil => intro sigs stale h m hm; exact h m hm
  | cons a t ih =>
    intro sigs stale h m hm
    rw [List.foldl_cons] at hm
    rcases hst : agStep f (sigs, stale) a with ⟨sigs2, stale2⟩
    rw [hst] at hm
    refine ih sigs2 stale2 ?_ m hm
    intro m2 hm2
    have hmem : m2 ∈ (agStep f (sigs, stale) a).1 := by rw [hst]; exact hm2
    rcases agStep_mem hmem with h2 | h2
    · exact h m2 h2
    · exact h2

/-! ### Reduced result forms of the five detectors -/

theorem setup_91_compra_fst (f : Frame) (h : ¬ flen f < 10) :
    (setup_91_compra f).1 =
      match (scanAcc (q91compra f) (mk91compra f) (List.range' 2 (flen f - 2))).getLast? with
      | some m => .found .s91compra m 75
      | none => .noSignal false := by
  simp only [setup_91_compra, h, if_false]

theorem setup_91_venda_fst (f : Frame) (h : ¬ flen f < 10) :
    (setup_91_venda f).1 =
      match (scanAcc (q91venda f) (mk91venda f) (List.range' 2 (flen f - 2))).getLast? with
      | some m => .found .s91venda m 75
      | none => .noSignal false := by
  simp only [setup_91_venda, h, if_false]

theorem setup_92_fst (f : Frame) (h : ¬ flen f < 10) :
    (setup_92 f).1 =
      match (scanAcc (q92 f) (mk92 f) (List.range' 2 (flen f - 2))).getLast? with
      | some m => .found .s92 m 70
      | none => .noSignal false := by
  simp only [setup_92, h, if_false]

theorem setup_ponto_continuo_fst (f : Frame) (h : ¬ flen f < 25) :
    (setup_ponto_continuo f).1 =
      match (scanAcc (qPC f) (mkPC f) (List.range' 21 (flen f - 21))).getLast? with
      | some m => .found .pontoContinuo m 80
      | none => .noSignal false := by
  simp only [setup_ponto_continuo, h, if_false]

theorem setup_agulhada_fst (f : Frame) (h : ¬ flen f < 55) :
    (setup_agulhada f).1 =
      match ((List.range' 50 (flen f - 50)).foldl (agStep f) ([], none)).1.getLast? with
      | some m => .found .agulhada m (if m.kind = .agulhadaCompra then 85 else 80)
      | none => .noSignal false := by
  simp only [setup_agulhada, h, if_false]

/-! ### C1 -/

/-- C1: for every input series, whenever a setup detector reports found,
the reported candidate's stored risk fraction equals
`|entry - stop| / entry` and is at most the setup's ceiling: 2% for 9.1
compra, 9.1 venda, 9.2 and ponto contínuo, 2.5% for the agulhada; no
detector output carries a risk fraction above its ceiling. -/
theorem detector_risk_ceiling (f : Frame) (nm : SetupName) (m : TradeMatch) (c : ℕ) :
    ((setup_91_compra f).1 = .found nm m c →
      m.risk_pct = |m.entry_price - m.stop_loss| / m.entry_price ∧ m.risk_pct ≤ 2 / 100) ∧
    ((setup_91_venda f).1 = .found nm m c →
      m.risk_pct = |m.entry_price - m.stop_loss| / m.entry_price ∧ m.risk_pct ≤ 2 / 100) ∧
    ((setup_92 f).1 = .found nm m c →
      m.risk_pct = |m.entry_price - m.stop_loss| / m.entry_price ∧ m.risk_pct ≤ 2 / 100) ∧
    ((setup_ponto_continuo f).1 = .found nm m c →
      m.risk_pct = |m.entry_price - m.stop_loss| / m.entry_price ∧ m.risk_pct ≤ 2 / 100) ∧
    ((setup_agulhada f).1 = .found nm m c →
      m.risk_pct = |m.entry_price - m.stop_loss| / m.entry_price ∧ m.risk_pct ≤ 25 / 1000) := by
  refine ⟨?_, ?_, ?_, ?_, ?_⟩
  · intro h
    by_cases hl : flen f < 10
    · simp [setup_91_compra, hl] at h
    · rw [setup_91_compra_fst f hl] at h
      rcases hg : (scanAcc (q91compra f) (mk91compra f)
          (List.range' 2 (flen f - 2))).getLast? with _ | m0
      · rw [hg] at h; simp at h
      · rw [hg] at h
        have h2 : DetectorResult.found .s91compra m0 75 = .found nm m c := h
        injection h2 with e1 e2 e3
        subst e2
        obtain ⟨i, hil, hc, rfl⟩ := mem_scanAcc (List.mem_of_getLast?_eq_some hg)
        exact ⟨rfl, q91compra_risk hc⟩
  · intro h
    by_cases hl : flen f < 10
    · simp [setup_91_venda, hl] at h
    · rw [setup_91_venda_fst f hl] at h
      rcases hg : (scanAcc (q91venda f) (mk91venda f)
          (List.range' 2 (flen f - 2))).getLast? with _ | m0
      · rw [hg] at h; simp at h
      · rw [hg] at h
        have h2 : DetectorResult.found .s91venda m0 75 = .found nm m c := h
        injection h2 with e1 e2 e3
        subst e2
        obtain ⟨i, hil, hc, rfl⟩ := mem_scanAcc (List.mem_of_getLast?_eq_some hg)
        exact ⟨rfl, q91venda_risk hc⟩
  · intro h
    by_cases hl : flen f < 10
    · simp [setup_92, hl] at h
    · rw [setup_92_fst f hl] at h
      rcases hg : (scanAcc (q92 f) (mk92 f)
          (List.range' 2 (flen f - 2))).getLast? with _ | m0
      · rw [hg] at h; simp at h
      · rw [hg] at h
        have h2 : DetectorResult.found .s92 m0 70 = .found nm m c := h
        injection h2 with e1 e2 e3
        subst e2
        obtain ⟨i, hil, hc, rfl⟩ := mem_scanAcc (List.mem_of_getLast?_eq_some hg)
        exact ⟨rfl, q92_risk hc⟩
  · intro h
    by_cases hl : flen f < 25
    · simp [setup_ponto_continuo, hl] at h
    · rw [setup_ponto_continuo_fst f hl] at h
      rcases hg : (scanAcc (qPC f) (mkPC f)
          (List.range' 21 (flen f - 21))).getLast? with _ | m0
      · rw [hg] at h; simp at h
      · rw [hg] at h
        have h2 : DetectorResult.found .pontoContinuo m0 80 = .found nm m c := h
        injection h2 with e1 e2 e3
        subst e2
        obtain ⟨i, hil, hc, rfl⟩ := mem_scanAcc (List.mem_of_getLast?_eq_some hg)
        exact ⟨rfl, qPC_risk hc⟩
  · intro h
    by_cases hl : flen f < 55
    · simp [setup_agulhada, hl] at h
    · rw [setup_agulhada_fst f hl] at h
      rcases hg : ((List.range' 50 (flen f - 50)).foldl (agStep f) ([], none)).1.getLast?
        with _ | m0
      · rw [hg] at h; simp at h
      · rw [hg] at h
        have h2 : DetectorResult.found .agulhada m0
            (if m0.kind = .agulhadaCompra then 85 else 80) = .found nm m c := h
        injection h2 with e1 e2 e3
        subst e2
        exact agScan_mem_risk f _ [] none (by intro m2 hm2; cases hm2) m0
          (List.mem_of_getLast?_eq_some hg)

/-- Witness for C1: all five detectors fire on their concrete series and
the reported risk fractions respect the ceilings. -/
theorem detector_risk_ceiling_witness :
    ((setup_91_compra seriesA).1 = .found .s91compra (mk91compra seriesA 8) 75 ∧
      (mk91compra seriesA 8).risk_pct ≤ 2 / 100) ∧
    ((setup_91_venda seriesB).1 = .found .s91venda (mk91venda seriesB 8) 75 ∧
      (mk91venda seriesB 8).risk_pct ≤ 2 / 100) ∧
    ((setup_92 seriesC).1 = .found .s92 (mk92 seriesC 10) 70 ∧
      (mk92 seriesC 10).risk_pct ≤ 2 / 100) ∧
    ((setup_ponto_continuo seriesD).1 = .found .pontoContinuo (mkPC seriesD 25) 80 ∧
      (mkPC seriesD 25).risk_pct ≤ 2 / 100) ∧
    ((setup_agulhada agSeries).1 = .found .agulhada agSeriesStale 85 ∧
      agSeriesStale.risk_pct ≤ 25 / 1000) := by
  refine ⟨⟨by decide, ?_⟩, ⟨by decide, ?_⟩, ⟨by decide, ?_⟩, ⟨by decide, ?_⟩, ⟨by decide, ?_⟩⟩
  · exact ((detector_risk_ceiling seriesA .s91compra (mk91compra seriesA 8) 75).1
      (by decide)).2
  · exact ((detector_risk_ceiling seriesB .s91venda (mk91venda seriesB 8) 75).2.1
      (by decide)).2
  · exact ((detector_risk_ceiling seriesC .s92 (mk92 seriesC 10) 70).2.2.1
      (by decide)).2
  · exact ((detector_risk_ceiling seriesD .pontoContinuo (mkPC seriesD 25) 80).2.2.2.1
      (by decide)).2
  · exact ((detector_risk_ceiling agSeries .agulhada agSeriesStale 85).2.2.2.2
      (by decide)).2

/-! ### C7 -/

/-- C7 (amended): for each of the four structural detectors — 9.1 compra,
9.1 venda, 9.2, ponto contínuo — if bar `i` satisfies the detector's
trigger-and-risk condition and no later bar does, the reported result is
exactly the qualifying occurrence at bar `i` (the most recent one). The
needle-alignment detector is excluded: its stale-state carry-over can
report a non-qualifying bar (see the counterexample). -/
theorem structural_detectors_most_recent (f : Frame) (i : ℕ) :
    (10 ≤ flen f → 2 ≤ i → i < flen f → q91compra f i = true →
      (∀ j, j < flen f → i < j → q91compra f j = false) →
      (setup_91_compra f).1 = .found .s91compra (mk91compra f i) 75) ∧
    (10 ≤ flen f → 2 ≤ i → i < flen f → q91venda f i = true →
      (∀ j, j < flen f → i < j → q91venda f j = false) →
      (setup_91_venda f).1 = .found .s91venda (mk91venda f i) 75) ∧
    (10 ≤ flen f → 2 ≤ i → i < flen f → q92 f i = true →
      (∀ j, j < flen f → i < j → q92 f j = false) →
      (setup_92 f).1 = .found .s92 (mk92 f i) 70) ∧
    (25 ≤ flen f → 21 ≤ i → i < flen f → qPC f i = true →
      (∀ j, j < flen f → i < j → qPC f j = false) →
      (setup_ponto_continuo f).1 = .found .pontoContinuo (mkPC f i) 80) := by
  refine ⟨?_, ?_, ?_, ?_⟩
  · intro hn h2 hi hc hmax
    have hnot : ¬ flen f < 10 := by omega
    rw [setup_91_compra_fst f hnot]
    have hlast : (scanAcc (q91compra f) (mk91compra f)
        (List.range' 2 (flen f - 2))).getLast? = some (mk91compra f i) := by
      refine getLast?_scanAcc_max (List.pairwise_lt_range' 2 (flen f - 2))
        (List.mem_range'_1.mpr ⟨h2, by omega⟩) hc ?_
      intro j hj hij
      have hb := List.mem_range'_1.mp hj
      exact hmax j (by omega) hij
    rw [hlast]
  · intro hn h2 hi hc hmax
    have hnot : ¬ flen f < 10 := by omega
    rw [setup_91_venda_fst f hnot]
    have hlast : (scanAcc (q91venda f) (mk91venda f)
        (List.range' 2 (flen f - 2))).getLast? = some (mk91venda f i) := by
      refine getLast?_scanAcc_max (List.pairwise_lt_range' 2 (flen f - 2))
        (List.mem_range'_1.mpr ⟨h2, by omega⟩) hc ?_
      intro j hj hij
      have hb := List.mem_range'_1.mp hj
      exact hmax j (by omega) hij
    rw [hlast]
  · intro hn h2 hi hc hmax
    have hnot : ¬ flen f < 10 := by omega
    rw [setup_92_fst f hnot]
    have hlast : (scanAcc (q92 f) (mk92 f)
        (List.range' 2 (flen f - 2))).getLast? = some (mk92 f i) := by
      refine getLast?_scanAcc_max (List.pairwise_lt_range' 2 (flen f - 2))
        (List.mem_range'_1.mpr ⟨h2, by omega⟩) hc ?_
      intro j hj hij
      have hb := List.mem_range'_1.mp hj
      exact hmax j (by omega) hij
    rw [hlast]
  · intro hn h2 hi hc hmax
    have hnot : ¬ flen f < 25 := by omega
    rw [setup_ponto_continuo_fst f hnot]
    have hlast : (scanAcc (qPC f) (mkPC f)
        (List.range' 21 (flen f - 21))).getLast? = some (mkPC f i) := by
      refine getLast?_scanAcc_max (List.pairwise_lt_range' 21 (flen f - 21))
        (List.mem_range'_1.mpr ⟨h2, by omega⟩) hc ?_
      intro j hj hij
      have hb := List.mem_range'_1.mp hj
      exact hmax j (by omega) hij
    rw [hlast]

/-- Witness for C7: each structural detector applied at its concrete
series, with the qualifying bar and the no-later-bar side conditions
discharged by computation. -/
theorem structural_detectors_most_recent_witness :
    (setup_91_compra seriesA).1 = .found .s91compra (mk91compra seriesA 8) 75 ∧
    (setup_91_venda seriesB).1 = .found .s91venda (mk91venda seriesB 8) 75 ∧
    (setup_92 seriesC).1 = .found .s92 (mk92 seriesC 10) 70 ∧
    (setup_ponto_continuo seriesD).1 = .found .pontoContinuo (mkPC seriesD 25) 80 :=
  ⟨(structural_detectors_most_recent seriesA 8).1 (by decide) (by decide) (by decide)
      (by decide) (by decide),
    (structural_detectors_most_recent seriesB 8).2.1 (by decide) (by decide) (by decide)
      (by decide) (by decide),
    (structural_detectors_most_recent seriesC 10).2.2.1 (by decide) (by decide) (by decide)
      (by decide) (by decide),
    (structural_detectors_most_recent seriesD 25).2.2.2 (by decide) (by decide) (by decide)
      (by decide) (by decide)⟩

/-- Counterexample for C7 as stated: on `agSeries` two bars (52 and 53)
satisfy the needle-alignment trigger-and-risk condition, 53 being the most
recent qualifying bar, yet the detector does not report the qualifying
occurrence at bar 53 — the stale-state append at bar 54 is reported
instead. -/
theorem agulhada_most_recent_counterexample :
    agQualifies agSeries 52 = true ∧ agQualifies agSeries 53 = true ∧
    (∀ j, j < flen agSeries → agQualifies agSeries j = true → j ≤ 53) ∧
    (setup_agulhada agSeries).1 ≠ .found .agulhada (agFreshBullMatch agSeries 53) 85 :=
  ⟨by decide, by decide, by decide, by decide⟩

/-! ### C3 -/

/-- C3: the needle-alignment detector on `agSeries` reports the triggering
bar 54, but the reported entry price is bar 53's high plus one pip — not
bar 54's — and at bar 54 the bull slope test fails, so the reported bar
does not satisfy the needle-alignment conditions at all. The
`if 'signal_type' in locals():` guard lets bar 53's entry/stop leak into
the bar-54 iteration. -/
theorem agulhada_stale_state_bug :
    (setup_agulhada agSeries).1 = .found .agulhada agSeriesStale 85 ∧
    agSeriesStale.bar_index = 54 ∧
    agSeriesStale.entry_price = gq agSeries.high 53 + 1 / 10000 ∧
    agSeriesStale.entry_price ≠ gq agSeries.high 54 + 1 / 10000 ∧
    agSlopesBull agSeries 54 = false ∧
    agQualifies agSeries 54 = false :=
  ⟨by decide, by decide, by decide, by decide, by decide, by decide⟩

/-! ### C2 -/

/-- Counterexample for C2 as stated: with a requested risk percentage of 4,
`RiskManager.calculate_position_size` clamps both the halved and the
unhalved percentage to the 1% per-position cap, so the golden-week position
size equals — rather than halves — the ordinary one
(balance 10000, entry 1.10, stop 1.09). -/
theorem golden_week_halving_counterexample :
    (RM_calculate_position_size 10000 (11 / 10) (109 / 100) 4 true).position_size ≠
      (RM_calculate_position_size 10000 (11 / 10) (109 / 100) 4 false).position_size / 2 ∧
    (RM_calculate_position_size 10000 (11 / 10) (109 / 100) 4 true).risk_amount ≠
      (RM_calculate_position_size 10000 (11 / 10) (109 / 100) 4 false).risk_amount / 2 :=
  ⟨by decide, by decide⟩

/-- C2 (amended): before the final rounding to two decimals,
`GorilaStrategies.calculate_position_size` produces exactly half the
position size and half the risk amount under the golden-week flag, for all
inputs; `RiskManager.calculate_position_size` does the same provided the
requested risk percentage is at most 1, so that the halved percentage stays
inside the `min(risk_percentage, 1.0)` per-position clamp. -/
theorem golden_week_halving_amended (b rp e s : ℚ) :
    (gsRawPositionSize b rp e s true = gsRawPositionSize b rp e s false / 2 ∧
      gsRawRiskAmount b rp true = gsRawRiskAmount b rp false / 2) ∧
    (rp ≤ 1 →
      rmRawPositionSize b e s rp true = rmRawPositionSize b e s rp false / 2 ∧
      rmRawRiskAmount b rp true = rmRawRiskAmount b rp false / 2) := by
  constructor
  · constructor
    · simp only [gsRawPositionSize, Bool.false_eq_true, if_true, if_false]
      ring
    · simp only [gsRawRiskAmount, Bool.false_eq_true, if_true, if_false]
      ring
  · intro hrp
    have hpctT : rmRawRiskPct rp true = rp * (1 / 2) := by
      simp only [rmRawRiskPct, if_true]
      exact min_eq_left (by linarith)
    have hpctF : rmRawRiskPct rp false = rp := by
      simp only [rmRawRiskPct, Bool.false_eq_true, if_false]
      exact min_eq_left hrp
    constructor
    · simp only [rmRawPositionSize, rmRawRiskAmount, hpctT, hpctF]
      ring
    · simp only [rmRawRiskAmount, hpctT, hpctF]
      ring

/-- Witness for C2 (amended): the halving at balance 10000, risk 1%, entry
1.10, stop 1.09. -/
theorem golden_week_halving_witness :
    (gsRawPositionSize 10000 1 (11 / 10) (109 / 100) true =
        gsRawPositionSize 10000 1 (11 / 10) (109 / 100) false / 2 ∧
      gsRawRiskAmount 10000 1 true = gsRawRiskAmount 10000 1 false / 2) ∧
    (rmRawPositionSize 10000 (11 / 10) (109 / 100) 1 true =
        rmRawPositionSize 10000 (11 / 10) (109 / 100) 1 false / 2 ∧
      rmRawRiskAmount 10000 1 true = rmRawRiskAmount 10000 1 false / 2) :=
  ⟨(golden_week_halving_amended 10000 1 (11 / 10) (109 / 100)).1,
    (golden_week_halving_amended 10000 1 (11 / 10) (109 / 100)).2 (by norm_num)⟩
/-! ### C5 -/

/-- C5: trade-setup validation (with the 60-point confidence floor) returns
`valid = false` exactly when the price risk `|entry - stop|` is zero or the
reward:risk ratio `|take_profit - entry| / |entry - stop|` is below 2; a
confidence below 60 appears as a warning in the warnings list exactly when
it is below the floor, and never by itself affects `valid`. -/
theorem validate_trade_setup_spec (e s t c : ℚ) (w : Bool) :
    ((validate_trade_setup e s t c 60 w).valid = false ↔
      (|e - s| = 0 ∨ |t - e| / |e - s| < 2)) ∧
    (RMWarning.lowConfidence ∈ (validate_trade_setup e s t c 60 w).warnings ↔ c < 60) := by
  have habs : (0 : ℚ) ≤ |e - s| := abs_nonneg _
  constructor
  · by_cases hr : 0 < |e - s|
    · by_cases hrr : |t - e| / |e - s| < 2
      · simp [validate_trade_setup, hr, hrr]
      · simp [validate_trade_setup, hr, hrr, ne_of_gt hr]
    · have h0 : |e - s| = 0 := le_antisymm (not_lt.mp hr) habs
      simp [validate_trade_setup, hr, h0]
  · by_cases hc : (60 : ℚ) ≤ c
    · by_cases hw : w <;>
        simp [validate_trade_setup, hc, hw, not_lt.mpr hc]
    · by_cases hw : w <;>
        simp [validate_trade_setup, hc, hw, not_le.mp hc]

/-! ### C4 -/

theorem contribWeight_nonneg (o : Option TFAnalysis) (w : ℚ) (hw : 0 ≤ w) :
    0 ≤ contribWeight o w := by
  cases o <;> simp [contribWeight, hw]

theorem contrib_pair_le (o : Option TFAnalysis) (w : ℚ) (hw : 0 ≤ w)
    (hOK : strengthOKb o = true) :
    contribTrendScore .ALTA o w + contribTrendScore .BAIXA o w ≤ contribWeight o w := by
  cases o with
  | none => simp [contribTrendScore, contribWeight]
  | some a =>
    simp only [strengthOKb, Bool.and_eq_true, decide_eq_true_eq] at hOK
    rcases hOK with ⟨h0, h1⟩
    cases ha : a.trend <;> simp [contribTrendScore, contribWeight, ha] <;> nlinarith

theorem scores_le_total (tm : TimeframeMap)
    (hw : strengthOKb tm.wk1 = true) (hd : strengthOKb tm.d1 = true)
    (hh : strengthOKb tm.h1 = true) (hm : strengthOKb tm.m15 = true) :
    altaScore tm + baixaScore tm ≤ totalWeight tm := by
  have c1 := contrib_pair_le tm.wk1 40 (by norm_num) hw
  have c2 := contrib_pair_le tm.d1 30 (by norm_num) hd
  have c3 := contrib_pair_le tm.h1 20 (by norm_num) hh
  have c4 := contrib_pair_le tm.m15 10 (by norm_num) hm
  unfold altaScore baixaScore totalWeight
  linarith

theorem totalWeight_pos (tm : TimeframeMap)
    (h : (tm.wk1.isNone && tm.d1.isNone && tm.h1.isNone && tm.m15.isNone) = false) :
    0 < totalWeight tm := by
  rcases tm with ⟨w1, d1, h1, m1⟩
  cases w1 <;> cases d1 <;> cases h1 <;> cases m1 <;>
    simp_all [totalWeight, contribWeight] <;> norm_num

/-- C4: with all present per-timeframe strengths in [0, 100], the overall
bias is ALTA exactly when the strength-scaled up-score over the unscaled
total weight exceeds 0.6, BAIXA exactly when the scaled down-score over the
same denominator exceeds 0.6, NEUTRO otherwise; and a 50/50 split of
up-score and down-score always yields NEUTRO. -/
theorem overall_bias_thresholds (tm : TimeframeMap)
    (hw : strengthOKb tm.wk1 = true) (hd : strengthOKb tm.d1 = true)
    (hh : strengthOKb tm.h1 = true) (hm : strengthOKb tm.m15 = true) :
    (determine_overall_bias tm = .ALTA ↔ 3 / 5 < altaScore tm / totalWeight tm) ∧
    (determine_overall_bias tm = .BAIXA ↔ 3 / 5 < baixaScore tm / totalWeight tm) ∧
    (determine_overall_bias tm = .NEUTRO ↔
      (¬ 3 / 5 < altaScore tm / totalWeight tm ∧ ¬ 3 / 5 < baixaScore tm / totalWeight tm)) ∧
    (altaScore tm = baixaScore tm → determine_overall_bias tm = .NEUTRO) := by
  by_cases hN : (tm.wk1.isNone && tm.d1.isNone && tm.h1.isNone && tm.m15.isNone) = true
  · simp only [Bool.and_eq_true, Option.isNone_iff_eq_none] at hN
    obtain ⟨⟨⟨e1, e2⟩, e3⟩, e4⟩ := hN
    have hT : totalWeight tm = 0 := by simp [totalWeight, contribWeight, e1, e2, e3, e4]
    have hA : altaScore tm = 0 := by simp [altaScore, contribTrendScore, e1, e2, e3, e4]
    have hB : baixaScore tm = 0 := by simp [baixaScore, contribTrendScore, e1, e2, e3, e4]
    have hbias : determine_overall_bias tm = .NEUTRO := by
      unfold determine_overall_bias
      rw [if_pos (by simp [e1, e2, e3, e4])]
    rw [hbias, hT, hA, hB]
    norm_num
    exact ⟨by decide, by decide⟩
  · have hT : 0 < totalWeight tm :=
      totalWeight_pos tm (Bool.not_eq_true _ ▸ hN)
    have hTne : totalWeight tm ≠ 0 := ne_of_gt hT
    have hsum := scores_le_total tm hw hd hh hm
    have hnotboth : ¬ (3 / 5 < altaScore tm / totalWeight tm ∧
        3 / 5 < baixaScore tm / totalWeight tm) := by
      rintro ⟨ha, hb⟩
      rw [lt_div_iff₀ hT] at ha hb
      linarith
    have hbias : determine_overall_bias tm =
        (if 3 / 5 < altaScore tm / totalWeight tm then Trend.ALTA
         else if 3 / 5 < baixaScore tm / totalWeight tm then Trend.BAIXA else Trend.NEUTRO) := by
      unfold determine_overall_bias
      rw [if_neg (by simpa using hN), if_neg hTne]
    rw [hbias]
    by_cases hA : 3 / 5 < altaScore tm / totalWeight tm
    · have hB : ¬ 3 / 5 < baixaScore tm / totalWeight tm := fun hB => hnotboth ⟨hA, hB⟩
      refine ⟨by simp [hA], by simp [hA, hB], by simp [hA], ?_⟩
      intro heq
      rw [heq] at hA
      exact absurd hA hB
    · by_cases hB : 3 / 5 < baixaScore tm / totalWeight tm
      · refine ⟨by simp [hA, hB], by simp [hA, hB], by simp [hA, hB], ?_⟩
        intro heq
        rw [heq] at hA
        exact absurd hB hA
      · exact ⟨by simp [hA, hB], by simp [hA, hB], by simp [hA, hB], fun _ => by simp [hA, hB]⟩

/-- Witness for C4: a weekly-only map with an ALTA trend of full strength
(up-score 40 over total weight 40, a fraction of 1 > 0.6: bias ALTA). -/
theorem overall_bias_thresholds_witness :
    ((determine_overall_bias tmWeekly = .ALTA ↔
        3 / 5 < altaScore tmWeekly / totalWeight tmWeekly) ∧
      (determine_overall_bias tmWeekly = .BAIXA ↔
        3 / 5 < baixaScore tmWeekly / totalWeight tmWeekly) ∧
      (determine_overall_bias tmWeekly = .NEUTRO ↔
        (¬ 3 / 5 < altaScore tmWeekly / totalWeight tmWeekly ∧
          ¬ 3 / 5 < baixaScore tmWeekly / totalWeight tmWeekly)) ∧
      (altaScore tmWeekly = baixaScore tmWeekly →
        determine_overall_bias tmWeekly = .NEUTRO)) ∧
    determine_overall_bias tmWeekly = .ALTA :=
  ⟨overall_bias_thresholds tmWeekly (by decide) (by decide) (by decide) (by decide),
    by decide⟩

/-! ### C6 -/

theorem swingAccum_eq (highs lows : List ℚ) :
    swingAccum highs lows =
      (((List.range' 2 (highs.length - 4)).filter (localHigh1 highs)).map (gq highs),
       ((List.range' 2 (highs.length - 4)).filter (localLow1 lows)).map (gq lows)) := by
  have key : ∀ (l : List ℕ) (hs ls : List ℚ),
      l.foldl
        (fun acc i =>
          let hs := if localHigh1 highs i then acc.1 ++ [gq highs i] else acc.1
          let ls := if localLow1 lows i then acc.2 ++ [gq lows i] else acc.2
          (hs, ls)) (hs, ls) =
        (hs ++ (l.filter (localHigh1 highs)).map (gq highs),
         ls ++ (l.filter (localLow1 lows)).map (gq lows)) := by
    intro l
    induction l with
    | nil => intro hs ls; simp
    | cons a t ih =>
      intro hs ls
      rw [List.foldl_cons]
      by_cases hH : localHigh1 highs a <;> by_cases hL : localLow1 lows a <;>
        simp [hH, hL, ih, List.filter_cons]
  simpa [swingAccum] using key (List.range' 2 (highs.length - 4)) [] []

/-- C6 (amended): the swing-structure vote classifies a bar (over indices
2 … len-3 of the 20-bar window) as a local high/low by strict comparison
with ONE neighbour on each side — not two — and votes up exactly when both
the last two local highs and the last two local lows are rising (mirrored
for down): the coded vote coincides with that declarative description on
every window. -/
theorem swing_vote_one_neighbor (highs lows : List ℚ) :
    structure_trend highs lows = structure_trend_spec1 highs lows := by
  unfold structure_trend structure_trend_spec1
  rw [swingAccum_eq]

/-- Counterexample for C6 as stated: on a 20-bar window the coded vote says
ALTA while the two-neighbour reading of the claim yields NEUTRO (bar 7 of
`windowH` tops its immediate neighbours but not its second neighbour 5). -/
theorem swing_vote_two_neighbor_counterexample :
    windowH.length = 20 ∧ windowL.length = 20 ∧
    structure_trend windowH windowL = .ALTA ∧
    structure_trend_spec2 windowH windowL = .NEUTRO ∧
    structure_trend windowH windowL ≠ structure_trend_spec2 windowH windowL :=
  ⟨by decide, by decide, by decide, by decide, by decide⟩

/-! ### C8 -/

theorem bullEngulfPair_iff (o1 c1 o2 c2 : ℚ) :
    bullEngulfPair o1 c1 o2 c2 = true ↔ (c1 < o1 ∧ o2 < c2 ∧ o2 < c1 ∧ o1 < c2) := by
  simp [bullEngulfPair, and_assoc]

theorem bearEngulfPair_iff (o1 c1 o2 c2 : ℚ) :
    bearEngulfPair o1 c1 o2 c2 = true ↔ (o1 < c1 ∧ c2 < o2 ∧ c1 < o2 ∧ c2 < o1) := by
  simp [bearEngulfPair, and_assoc]

theorem detect_bullish_engulfing_getD (f : Frame) (i : ℕ) (h : i + 1 < flen f) :
    (detect_bullish_engulfing f).getD (i + 1) 0 =
      if bullEngulfPair (gq f.opn i) (gq f.close i) (gq f.opn (i + 1)) (gq f.close (i + 1))
        then 1 else 0 := by
  have h2 : ¬ flen f < 2 := by omega
  unfold detect_bullish_engulfing
  rw [if_neg h2, List.getD_cons_succ, List.getD_eq_getElem?_getD, List.getElem?_map,
    List.getElem?_range' 1 1 (by omega : i < flen f - 1)]
  simp [Nat.add_comm 1 i]

theorem detect_bearish_engulfing_getD (f : Frame) (i : ℕ) (h : i + 1 < flen f) :
    (detect_bearish_engulfing f).getD (i + 1) 0 =
      if bearEngulfPair (gq f.opn i) (gq f.close i) (gq f.opn (i + 1)) (gq f.close (i + 1))
        then 1 else 0 := by
  have h2 : ¬ flen f < 2 := by omega
  unfold detect_bearish_engulfing
  rw [if_neg h2, List.getD_cons_succ, List.getD_eq_getElem?_getD, List.getElem?_map,
    List.getElem?_range' 1 1 (by omega : i < flen f - 1)]
  simp [Nat.add_comm 1 i]

/-- C8: the bullish (bearish) engulfing flag is set on bar `i+1` exactly
when the prior bar's body is the opposite colour and the current open/close
contains the prior close/open on the opposite side; containment between two
same-coloured bodies never sets either flag. -/
theorem engulfing_requires_opposite_bodies (f : Frame) (i : ℕ) (h : i + 1 < flen f) :
    ((detect_bullish_engulfing f).getD (i + 1) 0 = 1 ↔
      (gq f.close i < gq f.opn i ∧ gq f.opn (i + 1) < gq f.close (i + 1) ∧
        gq f.opn (i + 1) < gq f.close i ∧ gq f.opn i < gq f.close (i + 1))) ∧
    ((detect_bearish_engulfing f).getD (i + 1) 0 = 1 ↔
      (gq f.opn i < gq f.close i ∧ gq f.close (i + 1) < gq f.opn (i + 1) ∧
        gq f.close i < gq f.opn (i + 1) ∧ gq f.close (i + 1) < gq f.opn i)) ∧
    (((gq f.close i < gq f.opn i ∧ gq f.close (i + 1) < gq f.opn (i + 1)) ∨
        (gq f.opn i < gq f.close i ∧ gq f.opn (i + 1) < gq f.close (i + 1))) →
      (detect_bullish_engulfing f).getD (i + 1) 0 = 0 ∧
        (detect_bearish_engulfing f).getD (i + 1) 0 = 0) := by
  rw [detect_bullish_engulfing_getD f i h, detect_bearish_engulfing_getD f i h]
  refine ⟨?_, ?_, ?_⟩
  · by_cases hp : bullEngulfPair (gq f.opn i) (gq f.close i) (gq f.opn (i + 1))
        (gq f.close (i + 1))
    · simp [hp, (bullEngulfPair_iff _ _ _ _).mp hp]
    · simp only [hp, if_false]
      rw [bullEngulfPair_iff] at hp
      simp [hp]
  · by_cases hp : bearEngulfPair (gq f.opn i) (gq f.close i) (gq f.opn (i + 1))
        (gq f.close (i + 1))
    · simp [hp, (bearEngulfPair_iff _ _ _ _).mp hp]
    · simp only [hp, if_false]
      rw [bearEngulfPair_iff] at hp
      simp [hp]
  · rintro (⟨ha, hb⟩ | ⟨ha, hb⟩)
    · constructor
      · rw [if_neg]
        rw [bullEngulfPair_iff]
        rintro ⟨-, h2, -, -⟩
        exact absurd h2 (not_lt.mpr (le_of_lt hb))
      · rw [if_neg]
        rw [bearEngulfPair_iff]
        rintro ⟨h1, -, -, -⟩
        exact absurd h1 (not_lt.mpr (le_of_lt ha))
    · constructor
      · rw [if_neg]
        rw [bullEngulfPair_iff]
        rintro ⟨h1, -, -, -⟩
        exact absurd h1 (not_lt.mpr (le_of_lt ha))
      · rw [if_neg]
        rw [bearEngulfPair_iff]
        rintro ⟨-, h2, -, -⟩
        exact absurd h2 (not_lt.mpr (le_of_lt hb))

/-- Witness for C8: the two-bar frame `seriesE` carries a bullish engulfing
at bar 1, and the theorem instantiated there. -/
theorem engulfing_requires_opposite_bodies_witness :
    (detect_bullish_engulfing seriesE).getD 1 0 = 1 ∧
    (((detect_bullish_engulfing seriesE).getD 1 0 = 1 ↔
      (gq seriesE.close 0 < gq seriesE.opn 0 ∧ gq seriesE.opn 1 < gq seriesE.close 1 ∧
        gq seriesE.opn 1 < gq seriesE.close 0 ∧ gq seriesE.opn 0 < gq seriesE.close 1)) ∧
    ((detect_bearish_engulfing seriesE).getD 1 0 = 1 ↔
      (gq seriesE.opn 0 < gq seriesE.close 0 ∧ gq seriesE.close 1 < gq seriesE.opn 1 ∧
        gq seriesE.close 0 < gq seriesE.opn 1 ∧ gq seriesE.close 1 < gq seriesE.opn 0)) ∧
    (((gq seriesE.close 0 < gq seriesE.opn 0 ∧ gq seriesE.close 1 < gq seriesE.opn 1) ∨
        (gq seriesE.opn 0 < gq seriesE.close 0 ∧ gq seriesE.opn 1 < gq seriesE.close 1)) →
      (detect_bullish_engulfing seriesE).getD 1 0 = 0 ∧
        (detect_bearish_engulfing seriesE).getD 1 0 = 0)) :=
  ⟨by decide, engulfing_requires_opposite_bodies seriesE 0 (by decide)⟩

/-! ### C9 -/

/-- Counterexample for C9 as stated: after a detector call the caller's
frame is NOT unchanged — `setup_91_compra` has written the `mme9` and
`mme9_slope` columns into it, and `setup_agulhada` has written six
indicator columns. -/
theorem detector_mutates_frame_counterexample :
    (setup_91_compra seriesA).2 ≠ seriesA ∧ (setup_agulhada agSeries).2 ≠ agSeries :=
  ⟨by decide, by decide⟩

/-- C9 (amended): every setup detector writes derived indicator columns
into the frame it receives (so the caller's frame does change), but the
OHLCV data itself — open, high, low, close, volume — is never modified by
any of the five detectors. -/
theorem detectors_preserve_ohlcv (f : Frame) :
    ((setup_91_compra f).2.opn = f.opn ∧ (setup_91_compra f).2.high = f.high ∧
      (setup_91_compra f).2.low = f.low ∧ (setup_91_compra f).2.close = f.close ∧
      (setup_91_compra f).2.volume = f.volume) ∧
    ((setup_91_venda f).2.opn = f.opn ∧ (setup_91_venda f).2.high = f.high ∧
      (setup_91_venda f).2.low = f.low ∧ (setup_91_venda f).2.close = f.close ∧
      (setup_91_venda f).2.volume = f.volume) ∧
    ((setup_92 f).2.opn = f.opn ∧ (setup_92 f).2.high = f.high ∧
      (setup_92 f).2.low = f.low ∧ (setup_92 f).2.close = f.close ∧
      (setup_92 f).2.volume = f.volume) ∧
    ((setup_ponto_continuo f).2.opn = f.opn ∧ (setup_ponto_continuo f).2.high = f.high ∧
      (setup_ponto_continuo f).2.low = f.low ∧ (setup_ponto_continuo f).2.close = f.close ∧
      (setup_ponto_continuo f).2.volume = f.volume) ∧
    ((setup_agulhada f).2.opn = f.opn ∧ (setup_agulhada f).2.high = f.high ∧
      (setup_agulhada f).2.low = f.low ∧ (setup_agulhada f).2.close = f.close ∧
      (setup_agulhada f).2.volume = f.volume) := by
  refine ⟨?_, ?_, ?_, ?_, ?_⟩
  · by_cases hl : flen f < 10 <;> simp [setup_91_compra, hl]
  · by_cases hl : flen f < 10 <;> simp [setup_91_venda, hl]
  · by_cases hl : flen f < 10 <;> simp [setup_92, hl]
  · by_cases hl : flen f < 25 <;> simp [setup_ponto_continuo, hl]
  · by_cases hl : flen f < 55 <;> simp [setup_agulhada, hl]

/-! ### C10 -/

/-- C10: the VWAP close-price fallback happens exactly when the series has
no volume column: without a volume column the vwap column is the close
column, while a series whose volume column is present but identically zero
gets cumulative 0/0 divisions (NaN, `none` here) instead of the fallback —
its vwap column is never the close column. -/
theorem vwap_fallback_exactly_without_volume :
    (∀ f : Frame, f.close ≠ [] → f.volume = none →
      (calculate_moving_averages f).vwap = some (f.close.map some)) ∧
    (∀ (f : Frame) (vs : List ℚ), f.close ≠ [] → f.volume = some vs →
      vs.length = f.close.length → (∀ v ∈ vs, v = 0) →
      (calculate_moving_averages f).vwap ≠ some (f.close.map some)) := by
  constructor
  · intro f hne hv
    have hl : ¬ flen f = 0 := by
      simpa [flen, List.length_eq_zero] using hne
    simp [calculate_moving_averages, hl, hv]
  · intro f vs hne hv hlen hz heq
    have hl : ¬ flen f = 0 := by
      simpa [flen, List.length_eq_zero] using hne
    rw [calculate_moving_averages] at heq
    simp only [hl, if_false, hv] at heq
    have heq2 : vwapWithVolume f.close vs = f.close.map some :=
      Option.some.inj heq
    rcases hc : f.close with _ | ⟨c, cs⟩
    · exact hne hc
    · rcases hvs : vs with _ | ⟨v, vs2⟩
      · rw [hvs, hc] at hlen
        simp at hlen
      · have hv0 : v = 0 := hz v (by rw [hvs]; exact List.mem_cons_self v vs2)
        rw [hc, hvs, hv0] at heq2
        have hhead := congrArg List.head? heq2
        simp only [vwapWithVolume, cumsum, List.scanl] at hhead
        rcases vs2 with _ | ⟨b, bs⟩
        · simp [List.scanl] at hhead
        · rcases cs with _ | ⟨d, ds⟩
          · simp [List.scanl] at hhead
          · simp [List.scanl] at hhead

/-- Witness for C10: the three-bar series without a volume column falls
back to close; the same bars with an all-zero volume column do not. -/
theorem vwap_fallback_witness :
    (calculate_moving_averages seriesNoVol).vwap = some (seriesNoVol.close.map some) ∧
    (calculate_moving_averages seriesVolZero).vwap ≠ some (seriesVolZero.close.map some) :=
  ⟨vwap_fallback_exactly_without_volume.1 seriesNoVol (by decide) rfl,
    vwap_fallback_exactly_without_volume.2 seriesVolZero [0, 0, 0] (by decide) rfl
      (by decide) (by decide)⟩
